import Mathlib

/-!
Shallow embedding of `src/push_cloudwatch_metric.py`, a command-line tool
that assembles metric records from comma-delimited CLI arguments and pushes
them to a cloud monitoring endpoint.  Pure parsing functions are translated
as Lean functions; the module-level mutable state (`AWSAccessKeyId`,
`AWSSecretKey`, `METADATA`) is threaded explicitly through a `Globals`
record; external collaborators (publish endpoint, metadata service, the
opened credential file) are parameters; exceptions become `Except` values.
-/

/-- Python exception values that the script can raise or observe. -/
inductive PyErr where
  | valueError (msg : String)
  | unboundLocal (nm : String)
  | attributeError (attr : String)
  | transportError (msg : String)
deriving DecidableEq

/-- Message payload of an exception, as read by `arg_parser.error(e.message)`. -/
def PyErr.message : PyErr → String
  | .valueError m => m
  | .unboundLocal n => "local variable " ++ n ++ " referenced before assignment"
  | .attributeError a => "Namespace object has no attribute " ++ a
  | .transportError m => m

/-- Split a character list at every occurrence of `sep`; the semantics of
the Python `str.split(sep)` (and of `String.splitOn`), defined by structural
recursion so that terms evaluate by `decide` and `rfl`. -/
def listSplit (sep : Char) : List Char → List (List Char)
  | [] => [[]]
  | c :: rest =>
      let r := listSplit sep rest
      if c = sep then [] :: r
      else
        match r with
        | [] => [[c]]
        | h :: t => (c :: h) :: t

/-- Python `s.split(sep)` for a one-character separator. -/
def pySplit (s : String) (sep : Char) : List String :=
  (listSplit sep s.data).map String.mk

/-- Python `s.strip()` with no argument: remove surrounding whitespace. -/
def pyStrip (s : String) : String :=
  String.mk (((s.data.dropWhile Char.isWhitespace).reverse.dropWhile
    Char.isWhitespace).reverse)

/-- Python `s.lower()`. -/
def pyLower (s : String) : String := String.mk (s.data.map Char.toLower)

/-- Python `sep.join(xs)`. -/
def joinSep (sep : String) : List String → String
  | [] => ""
  | [s] => s
  | s :: rest => s ++ sep ++ joinSep sep rest

/-- Python `s.strip("\n")`: remove leading and trailing newline characters. -/
def stripNL (s : String) : String :=
  String.mk (((s.data.dropWhile (fun c => c = '\n')).reverse.dropWhile
    (fun c => c = '\n')).reverse)

/-- `UNIT_CHOICES`, lines 17-23 of the source. -/
def UNIT_CHOICES : List String :=
  ["Seconds", "Microseconds", "Milliseconds", "Bytes",
   "Kilobytes", "Megabytes", "Gigabytes", "Terabytes", "Bits",
   "Kilobits", "Megabits", "Gigabits", "Terabits", "Percent",
   "Count", "Bytes/Second", "Kilobytes/Second", "Megabytes/Second",
   "Gigabytes/Second", "Terabytes/Second", "Bits/Second",
   "Kilobits/Second", "Megabits/Second", "Gigabits/Second",
   "Terabits/Second", "Count/Second"]

/-- Nonempty all-digit string. -/
def isDigits (s : String) : Bool := !s.data.isEmpty && s.data.all Char.isDigit

/-- Mantissa part of a float literal: `digits`, `digits.`, `digits.digits`
or `.digits`. -/
def isMantissa (s : String) : Bool :=
  match pySplit s '.' with
  | [a] => isDigits a
  | [a, b] => (isDigits a && (b.data.isEmpty || isDigits b)) || (a.data.isEmpty && isDigits b)
  | _ => false

/-- Digits with an optional leading sign (exponent part). -/
def isSignedDigits (s : String) : Bool :=
  match s.data with
  | '+' :: r => isDigits (String.mk r)
  | '-' :: r => isDigits (String.mk r)
  | _ => isDigits s

/-- Mantissa with an optional `e`/`E` exponent. -/
def isFloatCore (s : String) : Bool :=
  match pySplit (pyLower s) 'e' with
  | [m] => isMantissa m
  | [m, ex] => isMantissa m && isSignedDigits ex
  | _ => false

/-- Model of the strings accepted by the Python builtin `float(...)`:
surrounding whitespace stripped, optional sign, then `inf`, `infinity`,
`nan` (case-insensitive) or a decimal literal with optional exponent. -/
def isPyFloatLit (s : String) : Bool :=
  let t := pyStrip s
  let t := match t.data with
    | '+' :: r => String.mk r
    | '-' :: r => String.mk r
    | _ => t
  let low := pyLower t
  low == "inf" || low == "infinity" || low == "nan" || isFloatCore t

/-- `_parse_name`, lines 156-157: split the raw name string on commas. -/
def _parse_name (nm : String) : List String := pySplit nm ','

/-- `_parse_value`, lines 160-166: split on commas and convert every element
with `float(...)`; any failure raises
`ValueError('metric value should be float.')`.  Values are carried as their
validated literal tokens (the claims under verification depend only on the
element count and on parse success or failure, never on float arithmetic). -/
def _parse_value (value : String) : Except PyErr (List String) :=
  let values := pySplit value ','
  if values.all isPyFloatLit then .ok values
  else .error (.valueError "metric value should be float.")

/-- Loop body of `_parse_unit`, lines 173-176: raise on the first token not in
`UNIT_CHOICES`, with a message listing the whole accepted set. -/
def checkUnits : List String → Except PyErr Unit
  | [] => .ok ()
  | u :: rest =>
      if u ∈ UNIT_CHOICES then checkUnits rest
      else .error (.valueError ("unit must be one of the following:\n"
        ++ joinSep ", " UNIT_CHOICES))

/-- `_parse_unit`, lines 169-177.  `unit.split(',') if unit else None`:
a `None` or empty unit string yields no tokens (`return []`); otherwise
every comma-separated token is validated against `UNIT_CHOICES`. -/
def _parse_unit (unit : Option String) : Except PyErr (List String) :=
  match unit with
  | none => .ok []
  | some u =>
      if u = "" then .ok []
      else
        let units := pySplit u ','
        match checkUnits units with
        | .ok _ => .ok units
        | .error e => .error e

/-- Value stored for one dimension key: a bare string when the key appears
once, an ordered tuple of strings when it appears several times. -/
inductive DimVal where
  | single (v : String)
  | multi (vs : List String)
deriving DecidableEq

/-- Dimension mapping (Python dict from key to bare value or tuple). -/
abbrev Dims := List (String × DimVal)

/-- First-match lookup in an association list (Python dict read). -/
def lookupList {α : Type} : List (String × α) → String → Option α
  | [], _ => none
  | (k0, v) :: rest, k => if k0 = k then some v else lookupList rest k

/-- `kv.split('=')[0]`: fragment before the first `=` (the whole string when
there is no `=`). -/
def pairKey (kv : String) : String := (pySplit kv '=').headD ""

/-- `'='.join(kv.split('=')[1:])`: the remaining fragments rejoined. -/
def pairVal (kv : String) : String := joinSep "=" ((pySplit kv '=').drop 1)

/-- `dimension_dict[k].extend([v])` on a `defaultdict(list)`: append `v` to
the list stored under `k`, creating the entry when absent. -/
def insertAppend : List (String × List String) → String → String → List (String × List String)
  | [], k, v => [(k, [v])]
  | (k0, vs) :: rest, k, v =>
      if k0 = k then (k0, vs ++ [v]) :: rest
      else (k0, vs) :: insertAppend rest k v

/-- The `for kv in key_val` loop of `_parse_dimension`, lines 143-147. -/
def dimAccumulateFrom (acc : List (String × List String)) : List String → List (String × List String)
  | [] => acc
  | kv :: rest => dimAccumulateFrom (insertAppend acc (pairKey kv) (pairVal kv)) rest

/-- Accumulated per-key value lists for a raw pair list, starting empty. -/
def dimAccumulate (pairs : List String) : List (String × List String) :=
  dimAccumulateFrom [] pairs

/-- Second loop of `_parse_dimension`, lines 148-152: a one-element list
becomes the bare value (`v.pop()`), anything else a tuple. -/
def toDimVal : List String → DimVal
  | [v] => .single v
  | vs => .multi vs

/-- `_parse_dimension`, lines 138-153.  `if not dimensions: return` yields
the Python `None` (modelled as `none`), distinct from an empty dict. -/
def _parse_dimension (dimensions : Option String) : Option Dims :=
  match dimensions with
  | none => none
  | some s =>
      if s = "" then none
      else some ((dimAccumulate (pySplit s ',')).map (fun p => (p.1, toDimVal p.2)))

/-- Function-local variables of `_populate_credential` (Python makes
`AWSAccessKeyId` and `AWSSecretKey` local because they are assigned in the
function body and there is no `global` statement); `none` models an unbound
local. -/
structure CredLocals where
  access : Option String
  secret : Option String
deriving DecidableEq

/-- One iteration of the `for line in credential` loop, lines 90-96:
`line.split('=')`, compare `parts[0]` exactly, store `parts[1].strip("\n")`. -/
def credStep (st : CredLocals) (line : String) : CredLocals :=
  if '=' ∈ line.data then
    let parts := pySplit line '='
    let st1 := if parts.headD "" = "AWSAccessKeyId"
      then { st with access := some (stripNL (parts.getD 1 "")) } else st
    if parts.headD "" = "AWSSecretKey"
      then { st1 with secret := some (stripNL (parts.getD 1 "")) } else st1
  else st

/-- The whole credential loop over the file lines. -/
def credScan : CredLocals → List String → CredLocals
  | st, [] => st
  | st, l :: rest => credScan (credStep st l) rest

/-- `_populate_credential`, lines 89-98.  The final
`if not (AWSAccessKeyId and AWSSecretKey)` reads the locals with Python
truthiness and short-circuiting: an unbound local raises
`UnboundLocalError`, an empty assigned value makes the test true and raises
`ValueError`. -/
def _populate_credential (lines : List String) : Except PyErr Unit :=
  match (credScan ⟨none, none⟩ lines).access with
  | none => .error (.unboundLocal "AWSAccessKeyId")
  | some a =>
      if a = "" then .error (.valueError "AWSAccessKeyId or AWSSecretKey is empty")
      else
        match (credScan ⟨none, none⟩ lines).secret with
        | none => .error (.unboundLocal "AWSSecretKey")
        | some s =>
            if s = "" then .error (.valueError "AWSAccessKeyId or AWSSecretKey is empty")
            else .ok ()

/-- Module-level mutable state of the script: lines 13-15.  `AWSAccessKeyId`
and `AWSSecretKey` start as `None`; `METADATA` starts as an empty dict
(both optional keys absent). -/
structure Globals where
  awsAccessKeyId : Option String
  awsSecretKey : Option String
  metadata_instance_id : Option String
  metadata_region : Option String
deriving DecidableEq

/-- State of the module globals when the process starts. -/
def initGlobals : Globals := ⟨none, none, none, none⟩

/-- Data returned by a successful `get_instance_metadata` call. -/
structure MetaResp where
  instance_id : String
  availability_zone : String

/-- Region-list loop body of `_populate_metadata`, lines 106-108. -/
def regionStep (region_name : String) (acc : Globals) (cur : String) : Globals :=
  if cur = region_name then { acc with metadata_region := some cur } else acc

/-- `_populate_metadata`, lines 101-108.  A falsy metadata response leaves
`METADATA` untouched; otherwise the instance id is stored and the region
derived by dropping the final availability-zone letter is matched against
the known region names. -/
def _populate_metadata (resp : Option MetaResp) (regions : List String) (g : Globals) : Globals :=
  match resp with
  | none => g
  | some r =>
      let g1 := { g with metadata_instance_id := some r.instance_id }
      let region_name := String.mk r.availability_zone.data.dropLast
      regions.foldl (regionStep region_name) g1

/-- Effect of calling `_populate_credential` on the module globals: the
source contains no `global` statement, so the two assignments in the loop
bind function locals and the module-level values flow through unchanged. -/
def populateCredentialGlobals (lines : List String) (g : Globals) : Except PyErr Globals :=
  match _populate_credential lines with
  | .ok _ => .ok g
  | .error e => .error e

/-- Arguments of the `cloudwatch.CloudWatchConnection(...)` constructor,
lines 117-121. -/
structure CloudWatchConnection where
  region : Option String
  aws_access_key_id : Option String
  aws_secret_access_key : Option String
deriving DecidableEq

/-- One batched `put_metric_data` request, lines 129-135. -/
structure PublishCall where
  nspace : String
  name : List String
  value : List String
  unit : List String
  dimensions : Option Dims
deriving DecidableEq

/-- `dict.update` with a single key: overwrite in place or append. -/
def dictUpdate : Dims → String → DimVal → Dims
  | [], k, v => [(k, v)]
  | (k0, v0) :: rest, k, v =>
      if k0 = k then (k0, v) :: rest else (k0, v0) :: dictUpdate rest k v

/-- Outcome of `put_cloudwatch_metric`: the constructed connection, the
publish calls issued, and the returned or raised result. -/
structure PutResult where
  conn : CloudWatchConnection
  calls : List PublishCall
  result : Except PyErr Unit

/-- `put_cloudwatch_metric`, lines 111-135.  The endpoint parameter stands
for the external publish collaborator (`cw.put_metric_data`); its result is
returned unchanged.  `if not instance_id` uses Python truthiness (absent key
or empty string). -/
def put_cloudwatch_metric (g : Globals) (endpoint : PublishCall → Except PyErr Unit)
    (nspace : String) (nm : List String) (value : List String)
    (dimensions : Option Dims) (unit : List String) (instance_specific : Bool) : PutResult :=
  let cw : CloudWatchConnection := ⟨g.metadata_region, g.awsAccessKeyId, g.awsSecretKey⟩
  if instance_specific then
    let instance_id := g.metadata_instance_id.getD ""
    if instance_id = "" then
      ⟨cw, [], .error (.valueError "Instance id is empty")⟩
    else
      let dims := dictUpdate (dimensions.getD []) "InstanceId" (.single instance_id)
      let call : PublishCall := ⟨nspace, nm, value, unit, some dims⟩
      ⟨cw, [call], endpoint call⟩
  else
    let call : PublishCall := ⟨nspace, nm, value, unit, dimensions⟩
    ⟨cw, [call], endpoint call⟩

/-- Parsed CLI arguments as stored on the argparse `Namespace`.  The
credential file itself is modelled separately because `type=file` makes
argparse open it during `parse_args`. -/
structure RawArgs where
  nspace : String
  name : String
  value : String
  unit : Option String
  dimensions : Option String
  instance_specific : Bool
  verify : Bool

/-- Attribute names that argparse stores on the parsed `Namespace`: the
`dest` of each `add_argument` call in `parser()`, lines 26-86.  Reading any
other attribute raises `AttributeError`. -/
def argparseDests : List String :=
  ["namespace", "name", "value", "unit", "dimensions", "credential",
   "instance_specific", "verify"]

/-- Values bound by the `try` block of `main`, lines 181-191, when it
completes without an exception. -/
structure ParsedInput where
  names : List String
  values : List String
  units : List String
  dims : Option Dims
  credLines : List String
deriving DecidableEq

/-- The `try` block of `main`, lines 181-196.  `credFile` is the outcome of
argparse opening the `-c` file during `parse_args` (`Except.error` carries
the `IOError` filename).  A returned `.error msg` is the message handed to
`arg_parser.error`, which exits the process. -/
def mainParsePhase (args : RawArgs) (credFile : Except String (List String)) :
    Except String ParsedInput :=
  match credFile with
  | .error fname =>
      .error ("credential file not found at " ++ fname ++ ",try -c to use another path")
  | .ok credLines =>
      match _parse_value args.value with
      | .error e => .error e.message
      | .ok values =>
          match _parse_unit args.unit with
          | .error e => .error e.message
          | .ok units =>
              if (_parse_name args.name).length ≠ values.length then
                .error "names should be as many as values."
              else
                .ok ⟨_parse_name args.name, values,
                  (if (_parse_name args.name).length ≠ units.length
                   then units ++ List.replicate ((_parse_name args.name).length - units.length) "None"
                   else units),
                  _parse_dimension args.dimensions, credLines⟩

/-- External I/O performed by `main` after `parse_args` has returned: the
metadata lookup (line 208), the read of the opened credential file
(line 209, had it been reached), and each publish request.  The opening of
the credential file happens inside `parse_args` itself and is represented
by the `credFile` input of `mainParsePhase`. -/
inductive ExtCall where
  | metadataFetch
  | credentialRead
  | publish (c : PublishCall)
deriving DecidableEq

/-- Predicate selecting publish requests in a trace. -/
def ExtCall.isPublish : ExtCall → Bool
  | .publish _ => true
  | _ => false

/-- Process outcome of `main`: `arg_parser.error` (exit with a message),
normal return, or an uncaught exception. -/
inductive MainResult where
  | exited (msg : String)
  | normal
  | raised (e : PyErr)
deriving DecidableEq

/-- Runner for `main`, lines 180-218, paired with the trace of post-parse external
calls.  After the `try` block, a verify run prints and returns (line 206);
otherwise `_populate_metadata()` runs and then line 209 evaluates
`args.credential_path`, an attribute argparse never stores (the parser
dest is `credential`), so the access raises `AttributeError`; the branch
below it embeds what the rest of `main` does with the credential lines and
`put_cloudwatch_metric`. -/
def mainRun (args : RawArgs) (credFile : Except String (List String))
    (metaResp : Option MetaResp) (regions : List String)
    (endpoint : PublishCall → Except PyErr Unit) : MainResult × List ExtCall :=
  match mainParsePhase args credFile with
  | .error msg => (.exited msg, [])
  | .ok p =>
      if args.verify then
        (.normal, [])
      else
        let g := _populate_metadata metaResp regions initGlobals
        if argparseDests.contains "credential_path" then
          match populateCredentialGlobals p.credLines g with
          | .error e => (.raised e, [.metadataFetch, .credentialRead])
          | .ok g2 =>
              let r := put_cloudwatch_metric g2 endpoint args.nspace p.names p.values
                p.dims p.units args.instance_specific
              ((match r.result with | .ok _ => .normal | .error e => .raised e),
                [.metadataFetch, .credentialRead] ++ r.calls.map .publish)
        else
          (.raised (.attributeError "credential_path"), [.metadataFetch])

/-- Modelled from the claim wording for C2 (the spec text of section 4.5),
for comparison against `_populate_credential` above: split each line once
on `=`, trim key and value, store under a matching recognized name with
last write winning, and fail with `ValueError` when either field is still
empty after the scan. -/
def populateCredentialSpec (lines : List String) : Except PyErr (String × String) :=
  let st := lines.foldl (fun (st : Option String × Option String) line =>
    if '=' ∈ line.data then
      let parts := pySplit line '='
      let key := pyStrip (parts.headD "")
      let val := pyStrip (joinSep "=" (parts.drop 1))
      let st2 := if key = "AWSAccessKeyId" then (some val, st.2) else st
      if key = "AWSSecretKey" then (st2.1, some val) else st2
    else st) (none, none)
  match st.1, st.2 with
  | some a, some s =>
      if a = "" || s = "" then .error (.valueError "AWSAccessKeyId or AWSSecretKey is empty")
      else .ok (a, s)
  | _, _ => .error (.valueError "AWSAccessKeyId or AWSSecretKey is empty")

/-- Left-priority choice on optional strings. -/
def orOpt : Option String → Option String → Option String
  | some v, _ => some v
  | none, b => b

/-- Holds when a credential-file line assigns to `key`: it contains `=` and
the fragment before the first `=` is exactly `key` (no trimming). -/
def assignsTo (key l : String) : Prop :=
  '=' ∈ l.data ∧ (pySplit l '=').headD "" = key

instance (key l : String) : Decidable (assignsTo key l) := by
  unfold assignsTo
  infer_instance

/-- Value a credential line assigns: the fragment between the first and
second `=` (the whole remainder when the line has a single `=`), with
surrounding newlines stripped. -/
def lineVal (l : String) : String := stripNL ((pySplit l '=').getD 1 "")

/-- The value of the last line assigning to `key`, scanning from the right
(a later line takes priority over an earlier one). -/
def lastAssigned (key : String) : List String → Option String
  | [] => none
  | l :: rest =>
      orOpt (lastAssigned key rest) (if assignsTo key l then some (lineVal l) else none)

/-- All values attached to key `k` among the raw dimension pairs, in
encounter order, duplicates included. -/
def valuesFor (k : String) (pairs : List String) : List String :=
  (pairs.filter (fun kv => pairKey kv == k)).map pairVal

/-- C1: the claim says every valid non-dry-run invocation issues exactly one
batched publish call.  The code cannot: line 209 reads
`args.credential_path`, an attribute argparse never stores (the dest of the
`-c` option is `credential`), so a fully valid non-dry-run invocation with a
readable credential file and working metadata raises `AttributeError` after
the metadata fetch, and the number of publish calls issued is zero, not
one. -/
theorem C1_main_never_publishes :
    mainRun ⟨"MyApp", "Latency", "1.0", none, none, false, false⟩
      (.ok ["AWSAccessKeyId=AK", "AWSSecretKey=SK"])
      (some ⟨"i-0abc", "us-east-1a"⟩) ["us-east-1"] (fun _ => .ok ()) =
      (.raised (.attributeError "credential_path"), [.metadataFetch]) ∧
    ((mainRun ⟨"MyApp", "Latency", "1.0", none, none, false, false⟩
      (.ok ["AWSAccessKeyId=AK", "AWSSecretKey=SK"])
      (some ⟨"i-0abc", "us-east-1a"⟩) ["us-east-1"] (fun _ => .ok ())).2.filter
        ExtCall.isPublish).length = 0 :=
  ⟨rfl, rfl⟩

/-- C3: with the `-v`/`--verify` flag set, once parsing has succeeded the
tool returns normally and performs no post-parse external call at all: no
metadata fetch, no read of the credential file, no publish request. -/
theorem C3_dry_run_no_external_calls
    (args : RawArgs) (credFile : Except String (List String))
    (metaResp : Option MetaResp) (regions : List String)
    (endpoint : PublishCall → Except PyErr Unit) (p : ParsedInput)
    (hv : args.verify = true) (hp : mainParsePhase args credFile = .ok p) :
    mainRun args credFile metaResp regions endpoint = (.normal, []) := by
  unfold mainRun
  rw [hp, hv]
  rfl

/-- Witness for C3 at a concrete dry-run invocation. -/
theorem C3_witness :
    mainRun ⟨"N", "a", "1", none, none, false, true⟩ (.ok []) none []
      (fun _ => .ok ()) = (.normal, []) :=
  C3_dry_run_no_external_calls _ _ none [] _ ⟨["a"], ["1"], ["None"], none, []⟩ rfl rfl

/-- C2 counterexample: on the line `AWSAccessKeyId=a=b` the code splits on
every `=` and stores `parts[1] = "a"`, while the claim (split once on `=`)
stores `a=b`; and on an empty credential file the final check reads the
unbound local `AWSAccessKeyId` and raises `UnboundLocalError`, not the
`ValueError` the claim promises. -/
theorem C2_counterexample :
    credScan ⟨none, none⟩ ["AWSAccessKeyId=a=b", "AWSSecretKey=s"] =
      ⟨some "a", some "s"⟩ ∧
    populateCredentialSpec ["AWSAccessKeyId=a=b", "AWSSecretKey=s"] = .ok ("a=b", "s") ∧
    ("a" : String) ≠ "a=b" ∧
    _populate_credential [] = .error (.unboundLocal "AWSAccessKeyId") ∧
    populateCredentialSpec [] =
      .error (.valueError "AWSAccessKeyId or AWSSecretKey is empty") :=
  ⟨rfl, rfl, by decide, rfl, rfl⟩

/-- C4 counterexample: names `a,b` and values `1` have different element
counts, yet with unit `Bogus` the invocation fails with the unit error, not
with the count-mismatch error: units are parsed before the count check. -/
theorem C4_counterexample :
    (pySplit "a,b" ',').length ≠ (pySplit "1" ',').length ∧
    mainRun ⟨"N", "a,b", "1", some "Bogus", none, false, false⟩ (.ok []) none []
      (fun _ => .ok ()) =
      (.exited ("unit must be one of the following:\n" ++ joinSep ", " UNIT_CHOICES), []) ∧
    ("unit must be one of the following:\n" ++ joinSep ", " UNIT_CHOICES) ≠
      "names should be as many as values." :=
  ⟨by decide, rfl, by decide⟩

/-- C5 counterexample: one name with two units (`Count,Bytes`) is neither
rejected nor truncated: the parse phase succeeds and keeps both unit
tokens, leaving the unit list longer than the name list. -/
theorem C5_counterexample :
    mainParsePhase ⟨"N", "a", "1", some "Count,Bytes", none, false, false⟩ (.ok []) =
      .ok ⟨["a"], ["1"], ["Count", "Bytes"], none, []⟩ ∧
    (["Count", "Bytes"] : List String).length ≠ (["a"] : List String).length :=
  ⟨rfl, by decide⟩

/-- C6 counterexample: an empty or unset dimension string makes
`_parse_dimension` return the Python `None` (bare `return`), which is not
the empty mapping the claim describes. -/
theorem C6_counterexample :
    _parse_dimension (some "") = none ∧ _parse_dimension none = none ∧
    (none : Option Dims) ≠ some ([] : Dims) :=
  ⟨rfl, rfl, by decide⟩

/-- C9 counterexample: the raised message is
`metric value should be float.` with a trailing period, not the
`metric value should be float` the claim quotes. -/
theorem C9_counterexample :
    _parse_value "abc" = .error (.valueError "metric value should be float.") ∧
    "metric value should be float." ≠ "metric value should be float" :=
  ⟨rfl, by decide⟩

theorem orOpt_none (a : Option String) : orOpt a none = a := by cases a <;> rfl

theorem orOpt_absorb (a b : Option String) (v : String) :
    orOpt (orOpt a (some v)) b = orOpt a (some v) := by cases a <;> rfl

theorem lastAssigned_cons (key l : String) (rest : List String) :
    lastAssigned key (l :: rest) =
      orOpt (lastAssigned key rest) (if assignsTo key l then some (lineVal l) else none) := rfl

theorem credStep_access (st : CredLocals) (l : String) :
    (credStep st l).access =
      if assignsTo "AWSAccessKeyId" l then some (lineVal l) else st.access := by
  unfold credStep assignsTo lineVal
  by_cases hc : '=' ∈ l.data
  · by_cases hk : (pySplit l '=').headD "" = "AWSAccessKeyId" <;>
      by_cases hk2 : (pySplit l '=').headD "" = "AWSSecretKey" <;>
        simp_all
  · simp [hc]

theorem credStep_secret (st : CredLocals) (l : String) :
    (credStep st l).secret =
      if assignsTo "AWSSecretKey" l then some (lineVal l) else st.secret := by
  unfold credStep assignsTo lineVal
  by_cases hc : '=' ∈ l.data
  · by_cases hk : (pySplit l '=').headD "" = "AWSAccessKeyId" <;>
      by_cases hk2 : (pySplit l '=').headD "" = "AWSSecretKey" <;>
        simp_all
  · simp [hc]

theorem credScan_access (lines : List String) : ∀ st : CredLocals,
    (credScan st lines).access = orOpt (lastAssigned "AWSAccessKeyId" lines) st.access := by
  induction lines with
  | nil => intro st; rfl
  | cons l rest ih =>
      intro st
      show (credScan (credStep st l) rest).access = _
      rw [ih (credStep st l), credStep_access, lastAssigned_cons]
      by_cases h : assignsTo "AWSAccessKeyId" l
      · rw [if_pos h, if_pos h, orOpt_absorb]
      · rw [if_neg h, if_neg h, orOpt_none]

theorem credScan_secret (lines : List String) : ∀ st : CredLocals,
    (credScan st lines).secret = orOpt (lastAssigned "AWSSecretKey" lines) st.secret := by
  induction lines with
  | nil => intro st; rfl
  | cons l rest ih =>
      intro st
      show (credScan (credStep st l) rest).secret = _
      rw [ih (credStep st l), credStep_secret, lastAssigned_cons]
      by_cases h : assignsTo "AWSSecretKey" l
      · rw [if_pos h, if_pos h, orOpt_absorb]
      · rw [if_neg h, if_neg h, orOpt_none]

/-- C2 (amended): each line containing `=` is split on every `=`; when the
fragment before the first `=` (compared exactly, untrimmed) equals one of
the two recognized field names, the fragment between the first and second
`=` with surrounding newlines stripped is stored under that name, a later
occurrence overwriting an earlier one and unrecognized keys being silently
ignored; after scanning, the resolver succeeds exactly when both fields
were assigned a non-empty value, fails with `UnboundLocalError` when the
access-key local was never assigned, and with `ValueError` when it was
assigned an empty value. -/
theorem C2_amended_credential_resolution (lines : List String) :
    (credScan ⟨none, none⟩ lines).access = lastAssigned "AWSAccessKeyId" lines ∧
    (credScan ⟨none, none⟩ lines).secret = lastAssigned "AWSSecretKey" lines ∧
    (_populate_credential lines = .ok () ↔
      (∃ a, lastAssigned "AWSAccessKeyId" lines = some a ∧ a ≠ "") ∧
      (∃ s, lastAssigned "AWSSecretKey" lines = some s ∧ s ≠ "")) ∧
    (lastAssigned "AWSAccessKeyId" lines = none →
      _populate_credential lines = .error (.unboundLocal "AWSAccessKeyId")) ∧
    (∀ a, lastAssigned "AWSAccessKeyId" lines = some a → a = "" →
      _populate_credential lines =
        .error (.valueError "AWSAccessKeyId or AWSSecretKey is empty")) := by
  have ha : (credScan ⟨none, none⟩ lines).access = lastAssigned "AWSAccessKeyId" lines := by
    have h := credScan_access lines ⟨none, none⟩
    simpa [orOpt_none] using h
  have hs : (credScan ⟨none, none⟩ lines).secret = lastAssigned "AWSSecretKey" lines := by
    have h := credScan_secret lines ⟨none, none⟩
    simpa [orOpt_none] using h
  refine ⟨ha, hs, ?_, ?_, ?_⟩
  · unfold _populate_credential
    rw [ha, hs]
    cases hA : lastAssigned "AWSAccessKeyId" lines with
    | none => simp
    | some a =>
        cases hS : lastAssigned "AWSSecretKey" lines with
        | none => by_cases hae : a = "" <;> simp [hae]
        | some s => by_cases hae : a = "" <;> by_cases hse : s = "" <;> simp [hae, hse]
  · intro hA
    unfold _populate_credential
    rw [ha, hA]
  · intro a hA hae
    subst hae
    unfold _populate_credential
    rw [ha, hA]
    rfl

theorem C2_witness :
    _populate_credential ["AWSAccessKeyId=AK", "AWSSecretKey=SK"] = .ok () :=
  (C2_amended_credential_resolution ["AWSAccessKeyId=AK", "AWSSecretKey=SK"]).2.2.1.mpr
    ⟨⟨"AK", rfl, by decide⟩, ⟨"SK", rfl, by decide⟩⟩

theorem lookup_insertAppend_self (acc : List (String × List String)) (k v : String) :
    lookupList (insertAppend acc k v) k = some ((lookupList acc k).getD [] ++ [v]) := by
  induction acc with
  | nil => simp [insertAppend, lookupList]
  | cons h rest ih =>
      obtain ⟨k0, vs⟩ := h
      by_cases hk : k0 = k
      · subst hk
        simp [insertAppend, lookupList]
      · simp [insertAppend, lookupList, hk, ih]

theorem lookup_insertAppend_ne (acc : List (String × List String)) (k v k' : String)
    (hne : k' ≠ k) :
    lookupList (insertAppend acc k v) k' = lookupList acc k' := by
  have hne2 : ¬(k = k') := fun h => hne h.symm
  induction acc with
  | nil => simp [insertAppend, lookupList, hne2]
  | cons h rest ih =>
      obtain ⟨k0, vs⟩ := h
      by_cases hk : k0 = k
      · subst hk
        simp [insertAppend, lookupList, hne2]
      · simp [insertAppend, lookupList, hk, ih]

theorem valuesFor_cons (k kv : String) (rest : List String) :
    valuesFor k (kv :: rest) =
      if pairKey kv = k then pairVal kv :: valuesFor k rest else valuesFor k rest := by
  by_cases hk : pairKey kv = k
  · have hb : (pairKey kv == k) = true := beq_iff_eq.mpr hk
    simp [valuesFor, List.filter_cons, hb, hk]
  · have hb : (pairKey kv == k) = false := beq_eq_false_iff_ne.mpr hk
    simp [valuesFor, List.filter_cons, hb, hk]

theorem lookup_dimAccumulateFrom (pairs : List String) :
    ∀ (acc : List (String × List String)) (k : String),
    lookupList (dimAccumulateFrom acc pairs) k =
      match lookupList acc k with
      | some vs0 => some (vs0 ++ valuesFor k pairs)
      | none => if valuesFor k pairs = [] then none else some (valuesFor k pairs) := by
  induction pairs with
  | nil =>
      intro acc k
      cases h : lookupList acc k <;> simp [dimAccumulateFrom, valuesFor, h]
  | cons kv rest ih =>
      intro acc k
      show lookupList (dimAccumulateFrom (insertAppend acc (pairKey kv) (pairVal kv)) rest) k = _
      rw [ih, valuesFor_cons]
      by_cases hk : pairKey kv = k
      · rw [if_pos hk, hk, lookup_insertAppend_self]
        cases h : lookupList acc k <;> simp [h]
      · rw [if_neg hk, lookup_insertAppend_ne _ _ _ _ (fun h => hk h.symm)]

theorem lookup_map_snd {α β : Type} (f : α → β) (l : List (String × α)) (k : String) :
    lookupList (l.map (fun p => (p.1, f p.2))) k = (lookupList l k).map f := by
  induction l with
  | nil => rfl
  | cons h rest ih =>
      obtain ⟨k0, v⟩ := h
      by_cases hk : k0 = k <;> simp [lookupList, hk, ih]

/-- C6 (amended): dimension parsing splits on commas, splits each pair on
the first `=` (value fragments rejoined with `=`); per key, the stored
value is the bare value when the key appears once and the ordered tuple of
all its values (duplicates included, encounter order) when it appears more
than once; an empty or unset input produces the Python `None` sentinel
(absence of a dimension mapping), not an empty mapping, and not an error. -/
theorem C6_amended_dimension_parsing :
    (∀ s k, s ≠ "" →
      ∃ d, _parse_dimension (some s) = some d ∧
        lookupList d k =
          (match valuesFor k (pySplit s ',') with
           | [] => none
           | [v] => some (.single v)
           | vs => some (.multi vs))) ∧
    _parse_dimension none = none ∧ _parse_dimension (some "") = none := by
  refine ⟨?_, rfl, rfl⟩
  intro s k hs
  refine ⟨(dimAccumulate (pySplit s ',')).map (fun p => (p.1, toDimVal p.2)), ?_, ?_⟩
  · show (if s = "" then none
      else some ((dimAccumulate (pySplit s ',')).map (fun p => (p.1, toDimVal p.2)))) =
        some ((dimAccumulate (pySplit s ',')).map (fun p => (p.1, toDimVal p.2)))
    rw [if_neg hs]
  · rw [lookup_map_snd]
    unfold dimAccumulate
    rw [lookup_dimAccumulateFrom]
    show Option.map toDimVal
        (match (none : Option (List String)) with
         | some vs0 => some (vs0 ++ valuesFor k (pySplit s ','))
         | none => if valuesFor k (pySplit s ',') = [] then none
                   else some (valuesFor k (pySplit s ','))) = _
    cases hvf : valuesFor k (pySplit s ',') with
    | nil => simp
    | cons v tail =>
        cases tail with
        | nil => simp [toDimVal]
        | cons w t => simp [toDimVal]

/-- Witness for C6 at a concrete dimension string with a repeated key and a
value containing `=`. -/
theorem C6_witness :
    _parse_dimension (some "k=a=b,k=c,z=1") =
      some [("k", DimVal.multi ["a=b", "c"]), ("z", DimVal.single "1")] ∧
    lookupList ([("k", DimVal.multi ["a=b", "c"]), ("z", DimVal.single "1")] : Dims) "k" =
      some (DimVal.multi ["a=b", "c"]) := by
  obtain ⟨d, hd, hl⟩ := C6_amended_dimension_parsing.1 "k=a=b,k=c,z=1" "k" (by decide)
  have he : _parse_dimension (some "k=a=b,k=c,z=1") =
      some [("k", DimVal.multi ["a=b", "c"]), ("z", DimVal.single "1")] := rfl
  refine ⟨he, ?_⟩
  rw [he] at hd
  cases hd
  exact hl.trans rfl

theorem lookup_dictUpdate (d : Dims) (k : String) (v : DimVal) :
    lookupList (dictUpdate d k v) k = some v := by
  induction d with
  | nil => simp [dictUpdate, lookupList]
  | cons h rest ih =>
      obtain ⟨k0, v0⟩ := h
      by_cases hk : k0 = k
      · subst hk
        simp [dictUpdate, lookupList]
      · simp [dictUpdate, lookupList, hk, ih]

/-- C7: with `instance_specific` set, an unresolvable instance id (absent or
empty in the metadata state) makes `put_cloudwatch_metric` fail with
`ValueError('Instance id is empty')` without issuing any publish call;
otherwise the single publish call carries a dimension set whose
`InstanceId` key holds the resolved id as a single value — overwritten,
never merged into a tuple, whatever the caller supplied — and the endpoint
outcome is returned unchanged. -/
theorem C7_instance_specific (g : Globals) (endpoint : PublishCall → Except PyErr Unit)
    (nspace : String) (nm value : List String) (dims : Option Dims) (unit : List String) :
    (g.metadata_instance_id.getD "" = "" →
      put_cloudwatch_metric g endpoint nspace nm value dims unit true =
        ⟨⟨g.metadata_region, g.awsAccessKeyId, g.awsSecretKey⟩, [],
          .error (.valueError "Instance id is empty")⟩) ∧
    (∀ iid, g.metadata_instance_id = some iid → iid ≠ "" →
      (put_cloudwatch_metric g endpoint nspace nm value dims unit true).calls =
        [⟨nspace, nm, value, unit,
          some (dictUpdate (dims.getD []) "InstanceId" (.single iid))⟩] ∧
      lookupList (dictUpdate (dims.getD []) "InstanceId" (.single iid)) "InstanceId" =
        some (.single iid) ∧
      (put_cloudwatch_metric g endpoint nspace nm value dims unit true).result =
        endpoint ⟨nspace, nm, value, unit,
          some (dictUpdate (dims.getD []) "InstanceId" (.single iid))⟩) := by
  constructor
  · intro h
    unfold put_cloudwatch_metric
    rw [h]
    rfl
  · intro iid hiid hne
    have h1 : put_cloudwatch_metric g endpoint nspace nm value dims unit true =
        ⟨⟨g.metadata_region, g.awsAccessKeyId, g.awsSecretKey⟩,
         [⟨nspace, nm, value, unit,
            some (dictUpdate (dims.getD []) "InstanceId" (.single iid))⟩],
         endpoint ⟨nspace, nm, value, unit,
            some (dictUpdate (dims.getD []) "InstanceId" (.single iid))⟩⟩ := by
      unfold put_cloudwatch_metric
      rw [hiid]
      simp [hne]
    rw [h1]
    exact ⟨rfl, lookup_dictUpdate _ _ _, rfl⟩

/-- Witness for C7: a state without instance id fails without publishing; a
state with id `i-1` overwrites a user-supplied tuple-valued `InstanceId`
dimension with the single resolved id. -/
theorem C7_witness :
    put_cloudwatch_metric ⟨none, none, none, none⟩ (fun _ => .ok ()) "N" ["a"] ["1"]
        none ["None"] true =
      ⟨⟨none, none, none⟩, [], .error (.valueError "Instance id is empty")⟩ ∧
    (put_cloudwatch_metric ⟨none, none, some "i-1", none⟩ (fun _ => .ok ()) "N" ["a"] ["1"]
        (some [("InstanceId", DimVal.multi ["x", "y"])]) ["None"] true).calls =
      [⟨"N", ["a"], ["1"], ["None"], some [("InstanceId", DimVal.single "i-1")]⟩] :=
  ⟨(C7_instance_specific ⟨none, none, none, none⟩ (fun _ => .ok ()) "N" ["a"] ["1"]
      none ["None"]).1 rfl,
   ((C7_instance_specific ⟨none, none, some "i-1", none⟩ (fun _ => .ok ()) "N" ["a"] ["1"]
      (some [("InstanceId", DimVal.multi ["x", "y"])]) ["None"]).2 "i-1" rfl
      (by decide)).1⟩

theorem mainRun_exited (args : RawArgs) (credFile : Except String (List String))
    (metaResp : Option MetaResp) (regions : List String)
    (endpoint : PublishCall → Except PyErr Unit) (msg : String)
    (h : mainParsePhase args credFile = .error msg) :
    mainRun args credFile metaResp regions endpoint = (.exited msg, []) := by
  unfold mainRun
  rw [h]

theorem checkUnits_error (l : List String) (t : String) (ht : t ∈ l)
    (hbad : t ∉ UNIT_CHOICES) :
    checkUnits l = .error (.valueError ("unit must be one of the following:\n"
      ++ joinSep ", " UNIT_CHOICES)) := by
  induction l with
  | nil => cases ht
  | cons u rest ih =>
      unfold checkUnits
      by_cases hu : u ∈ UNIT_CHOICES
      · rw [if_pos hu]
        rcases List.mem_cons.mp ht with rfl | h
        · exact absurd hu hbad
        · exact ih h
      · rw [if_neg hu]

theorem parse_unit_error (ustr t : String) (hne : ustr ≠ "") (ht : t ∈ pySplit ustr ',')
    (hbad : t ∉ UNIT_CHOICES) :
    _parse_unit (some ustr) = .error (.valueError ("unit must be one of the following:\n"
      ++ joinSep ", " UNIT_CHOICES)) := by
  have step : _parse_unit (some ustr) =
      (if ustr = "" then (Except.ok [] : Except PyErr (List String)) else
        match checkUnits (pySplit ustr ',') with
        | .ok _ => .ok (pySplit ustr ',')
        | .error e => .error e) := rfl
  rw [step, if_neg hne, checkUnits_error (pySplit ustr ',') t ht hbad]

theorem mainParsePhase_error_exists (args : RawArgs) (credFile : Except String (List String))
    (h : (∃ e, _parse_value args.value = .error e) ∨
         (∃ e, _parse_unit args.unit = .error e)) :
    ∃ msg, mainParsePhase args credFile = .error msg := by
  cases credFile with
  | error f => exact ⟨_, rfl⟩
  | ok ls =>
      unfold mainParsePhase
      cases hv : _parse_value args.value with
      | error e => exact ⟨e.message, rfl⟩
      | ok vs =>
          rcases h with ⟨e, he⟩ | ⟨e, he⟩
          · rw [he] at hv
            cases hv
          · rw [he]
            exact ⟨e.message, rfl⟩

/-- C8: every supplied unit token outside `UNIT_CHOICES` makes unit
validation fail with a `ValueError` whose message lists the full accepted
set, and such an invocation exits at the parse phase with an empty external
trace, so the batch never reaches the publish step. -/
theorem C8_unit_validation (ustr t : String) (args : RawArgs)
    (credFile : Except String (List String)) (metaResp : Option MetaResp)
    (regions : List String) (endpoint : PublishCall → Except PyErr Unit)
    (hne : ustr ≠ "") (ht : t ∈ pySplit ustr ',') (hbad : t ∉ UNIT_CHOICES) :
    _parse_unit (some ustr) = .error (.valueError ("unit must be one of the following:\n"
      ++ joinSep ", " UNIT_CHOICES)) ∧
    (args.unit = some ustr →
      ∃ msg, mainRun args credFile metaResp regions endpoint = (.exited msg, [])) := by
  have hpu := parse_unit_error ustr t hne ht hbad
  refine ⟨hpu, fun hu => ?_⟩
  obtain ⟨msg, hm⟩ := mainParsePhase_error_exists args credFile (.inr ⟨_, hu ▸ hpu⟩)
  exact ⟨msg, mainRun_exited _ _ _ _ _ _ hm⟩

/-- Witness for C8 at the unit token `Furlongs`. -/
theorem C8_witness :
    _parse_unit (some "Furlongs") =
      .error (.valueError ("unit must be one of the following:\n"
        ++ joinSep ", " UNIT_CHOICES)) :=
  (C8_unit_validation "Furlongs" "Furlongs"
    ⟨"N", "a", "1", some "Furlongs", none, false, false⟩ (.ok []) none []
    (fun _ => .ok ()) (by decide) (by decide) (by decide)).1

/-- C9 (amended): whenever any comma-separated element of the raw value
string is not accepted by `float(...)`, value parsing fails with
`ValueError('metric value should be float.')` (trailing period included)
and the whole invocation exits at the parse phase with an empty external
trace: the batch is rejected with no partial success. -/
theorem C9_amended_value_parsing (v t : String) (args : RawArgs)
    (credFile : Except String (List String)) (metaResp : Option MetaResp)
    (regions : List String) (endpoint : PublishCall → Except PyErr Unit)
    (ht : t ∈ pySplit v ',') (hbad : isPyFloatLit t = false) :
    _parse_value v = .error (.valueError "metric value should be float.") ∧
    (args.value = v →
      ∃ msg, mainRun args credFile metaResp regions endpoint = (.exited msg, [])) := by
  have hpv : _parse_value v = .error (.valueError "metric value should be float.") := by
    have hall : ¬((pySplit v ',').all isPyFloatLit = true) := by
      intro hall
      have := List.all_eq_true.mp hall t ht
      rw [hbad] at this
      cases this
    have step : _parse_value v =
        (if (pySplit v ',').all isPyFloatLit then (Except.ok (pySplit v ',')) else
          .error (.valueError "metric value should be float.")) := rfl
    rw [step, if_neg hall]
  refine ⟨hpv, fun hv => ?_⟩
  obtain ⟨msg, hm⟩ := mainParsePhase_error_exists args credFile (.inl ⟨_, hv ▸ hpv⟩)
  exact ⟨msg, mainRun_exited _ _ _ _ _ _ hm⟩

/-- Witness for C9 at the value string `1,abc`. -/
theorem C9_witness :
    _parse_value "1,abc" = .error (.valueError "metric value should be float.") :=
  (C9_amended_value_parsing "1,abc" "abc" ⟨"N", "a,b", "1,abc", none, none, false, false⟩
    (.ok []) none [] (fun _ => .ok ()) (by decide) (by decide)).1

theorem parse_value_splits (v : String) (vs : List String)
    (h : _parse_value v = .ok vs) : vs = pySplit v ',' := by
  have step : _parse_value v =
      (if (pySplit v ',').all isPyFloatLit then (Except.ok (pySplit v ',')) else
        .error (.valueError "metric value should be float.")) := rfl
  rw [step] at h
  by_cases hall : (pySplit v ',').all isPyFloatLit = true
  · rw [if_pos hall] at h
    cases h
    rfl
  · rw [if_neg hall] at h
    cases h

theorem mainParsePhase_ok_inv (args : RawArgs) (credFile : Except String (List String))
    (p : ParsedInput) (h : mainParsePhase args credFile = .ok p) :
    p.names = pySplit args.name ',' ∧
    _parse_value args.value = .ok p.values ∧
    p.values = pySplit args.value ',' ∧
    (∃ us, _parse_unit args.unit = .ok us ∧
      p.units = us ++ List.replicate (p.names.length - us.length) "None") ∧
    p.names.length = p.values.length ∧
    p.dims = _parse_dimension args.dimensions ∧
    (∃ ls, credFile = .ok ls ∧ p.credLines = ls) := by
  unfold mainParsePhase at h
  split at h
  next fname => exact Except.noConfusion h
  next credLines =>
    split at h
    next e heqv => exact Except.noConfusion h
    next values heqv =>
      split at h
      next e hequ => exact Except.noConfusion h
      next units hequ =>
        split at h
        next hlen => exact Except.noConfusion h
        next hlen =>
          cases h
          refine ⟨rfl, heqv, parse_value_splits args.value values heqv,
            ⟨units, hequ, ?_⟩, not_ne_iff.mp hlen, rfl, ⟨credLines, rfl, rfl⟩⟩
          show (if (_parse_name args.name).length ≠ units.length
              then units ++ List.replicate ((_parse_name args.name).length - units.length) "None"
              else units) =
            units ++ List.replicate ((_parse_name args.name).length - units.length) "None"
          by_cases h2 : (_parse_name args.name).length ≠ units.length
          · rw [if_pos h2]
          · rw [if_neg h2]
            rw [not_ne_iff.mp h2]
            simp

/-- C4 (amended): whenever the comma-separated name and value strings have
different element counts, the invocation always exits at the parse phase
with an empty external trace (zero records published); the reported failure
is the count-mismatch error whenever the credential file opened and value
and unit parsing succeeded, while an earlier credential, value or unit
failure is reported instead when present (units and dimensions are parsed
before the count check). -/
theorem C4_amended_count_mismatch (args : RawArgs)
    (credFile : Except String (List String)) (metaResp : Option MetaResp)
    (regions : List String) (endpoint : PublishCall → Except PyErr Unit)
    (hmis : (pySplit args.name ',').length ≠ (pySplit args.value ',').length) :
    (∃ msg, mainRun args credFile metaResp regions endpoint = (.exited msg, [])) ∧
    (∀ ls vs us, credFile = .ok ls → _parse_value args.value = .ok vs →
      _parse_unit args.unit = .ok us →
      mainRun args credFile metaResp regions endpoint =
        (.exited "names should be as many as values.", [])) := by
  have key : ∀ ls vs us, credFile = .ok ls → _parse_value args.value = .ok vs →
      _parse_unit args.unit = .ok us →
      mainParsePhase args credFile = .error "names should be as many as values." := by
    intro ls vs us hc hv hu
    subst hc
    unfold mainParsePhase
    rw [hv, hu]
    have hlen : (_parse_name args.name).length ≠ vs.length := by
      rw [parse_value_splits args.value vs hv]
      exact hmis
    show (if (_parse_name args.name).length ≠ vs.length
        then (Except.error "names should be as many as values." : Except String ParsedInput)
        else .ok ⟨_parse_name args.name, vs,
          (if (_parse_name args.name).length ≠ us.length
           then us ++ List.replicate ((_parse_name args.name).length - us.length) "None"
           else us),
          _parse_dimension args.dimensions, ls⟩) =
      Except.error "names should be as many as values."
    rw [if_pos hlen]
  constructor
  · cases hm : mainParsePhase args credFile with
    | error msg => exact ⟨msg, mainRun_exited _ _ _ _ _ _ hm⟩
    | ok p =>
        obtain ⟨hn, _, hvs, _, hlen, _, _⟩ := mainParsePhase_ok_inv args credFile p hm
        rw [hn, hvs] at hlen
        exact absurd hlen hmis
  · intro ls vs us hc hv hu
    exact mainRun_exited _ _ _ _ _ _ (key ls vs us hc hv hu)

/-- Witness for C4: two names, one value, no unit; the run exits with the
count-mismatch message and an empty trace. -/
theorem C4_witness :
    mainRun ⟨"N", "a,b", "1", none, none, false, false⟩ (.ok []) none []
      (fun _ => .ok ()) = (.exited "names should be as many as values.", []) :=
  (C4_amended_count_mismatch ⟨"N", "a,b", "1", none, none, false, false⟩ (.ok []) none []
    (fun _ => .ok ()) (by decide)).2 [] ["1"] [] rfl rfl rfl

/-- C5 (amended): fewer unit tokens than metric names are right-padded with
the `None` sentinel until the unit list matches the name count, never an
error; more unit tokens than names are neither rejected nor truncated: the
over-long unit list is kept unchanged. -/
theorem C5_amended_unit_padding (args : RawArgs) (credFile : Except String (List String))
    (p : ParsedInput) (us : List String)
    (hp : mainParsePhase args credFile = .ok p) (hu : _parse_unit args.unit = .ok us) :
    p.units = us ++ List.replicate (p.names.length - us.length) "None" ∧
    (us.length ≤ p.names.length → p.units.length = p.names.length) ∧
    (p.names.length < us.length → p.units = us) := by
  obtain ⟨_, _, _, ⟨us2, hu2, hunits⟩, _, _, _⟩ := mainParsePhase_ok_inv args credFile p hp
  rw [hu] at hu2
  cases hu2
  refine ⟨hunits, ?_, ?_⟩
  · intro hle
    rw [hunits]
    simp only [List.length_append, List.length_replicate]
    omega
  · intro hlt
    rw [hunits]
    have hz : p.names.length - us.length = 0 := by omega
    rw [hz]
    simp

/-- Witness for C5: names `a,b,c` with the single unit `Count` are padded to
`Count,None,None`. -/
theorem C5_witness :
    (["Count", "None", "None"] : List String) =
      ["Count"] ++ List.replicate (3 - 1) "None" :=
  (C5_amended_unit_padding ⟨"N", "a,b,c", "1,2,3", some "Count", none, false, false⟩
    (.ok []) ⟨["a", "b", "c"], ["1", "2", "3"], ["Count", "None", "None"], none, []⟩
    ["Count"] rfl rfl).1

theorem regionStep_creds (rn : String) (g : Globals) (c : String) :
    (regionStep rn g c).awsAccessKeyId = g.awsAccessKeyId ∧
    (regionStep rn g c).awsSecretKey = g.awsSecretKey := by
  unfold regionStep
  split
  · exact ⟨rfl, rfl⟩
  · exact ⟨rfl, rfl⟩

theorem foldl_regionStep_creds (regions : List String) (rn : String) : ∀ g : Globals,
    (regions.foldl (regionStep rn) g).awsAccessKeyId = g.awsAccessKeyId ∧
    (regions.foldl (regionStep rn) g).awsSecretKey = g.awsSecretKey := by
  induction regions with
  | nil => intro g; exact ⟨rfl, rfl⟩
  | cons c rest ih =>
      intro g
      have h := ih (regionStep rn g c)
      have hr := regionStep_creds rn g c
      simp only [List.foldl_cons]
      exact ⟨h.1.trans hr.1, h.2.trans hr.2⟩

theorem populate_metadata_creds (resp : Option MetaResp) (regions : List String) (g : Globals) :
    (_populate_metadata resp regions g).awsAccessKeyId = g.awsAccessKeyId ∧
    (_populate_metadata resp regions g).awsSecretKey = g.awsSecretKey := by
  cases resp with
  | none => exact ⟨rfl, rfl⟩
  | some r =>
      have h := foldl_regionStep_creds regions (String.mk r.availability_zone.data.dropLast)
        { g with metadata_instance_id := some r.instance_id }
      exact ⟨h.1, h.2⟩

/-- C10: `_populate_credential` assigns only function locals (the source has
no `global` statement), so after the `main` sequence of
`_populate_metadata` followed by the credential read, the module-level
`AWSAccessKeyId` and `AWSSecretKey` are still `None`, and any
`CloudWatchConnection` constructed by `put_cloudwatch_metric` from that
state receives `None` for both credential parameters, whatever the
credential file contains. -/
theorem C10_credentials_stay_none (credLines : List String) (metaResp : Option MetaResp)
    (regions : List String) (endpoint : PublishCall → Except PyErr Unit)
    (nspace : String) (nm value : List String) (dims : Option Dims) (unit : List String)
    (instance_specific : Bool) (g2 : Globals)
    (h : populateCredentialGlobals credLines
      (_populate_metadata metaResp regions initGlobals) = .ok g2) :
    g2.awsAccessKeyId = none ∧ g2.awsSecretKey = none ∧
    (put_cloudwatch_metric g2 endpoint nspace nm value dims unit
      instance_specific).conn.aws_access_key_id = none ∧
    (put_cloudwatch_metric g2 endpoint nspace nm value dims unit
      instance_specific).conn.aws_secret_access_key = none := by
  have hg2 : g2 = _populate_metadata metaResp regions initGlobals := by
    unfold populateCredentialGlobals at h
    cases hc : _populate_credential credLines with
    | ok u => rw [hc] at h; cases h; rfl
    | error e => rw [hc] at h; cases h
  have hm := populate_metadata_creds metaResp regions initGlobals
  have h1 : g2.awsAccessKeyId = none := by rw [hg2]; exact hm.1
  have h2 : g2.awsSecretKey = none := by rw [hg2]; exact hm.2
  have hconn : (put_cloudwatch_metric g2 endpoint nspace nm value dims unit
      instance_specific).conn = ⟨g2.metadata_region, g2.awsAccessKeyId, g2.awsSecretKey⟩ := by
    unfold put_cloudwatch_metric
    cases instance_specific
    · rfl
    · by_cases hi : g2.metadata_instance_id.getD "" = ""
      · simp [hi]
      · simp [hi]
  refine ⟨h1, h2, ?_, ?_⟩
  · rw [hconn]
    exact h1
  · rw [hconn]
    exact h2

/-- Witness for C10 after reading a well-formed credential file. -/
theorem C10_witness :
    (put_cloudwatch_metric initGlobals (fun _ => .ok ()) "N" ["a"] ["1"] none ["None"]
      false).conn.aws_access_key_id = none ∧
    (put_cloudwatch_metric initGlobals (fun _ => .ok ()) "N" ["a"] ["1"] none ["None"]
      false).conn.aws_secret_access_key = none :=
  ⟨(C10_credentials_stay_none ["AWSAccessKeyId=AK", "AWSSecretKey=SK"] none []
      (fun _ => .ok ()) "N" ["a"] ["1"] none ["None"] false initGlobals rfl).2.2.1,
   (C10_credentials_stay_none ["AWSAccessKeyId=AK", "AWSSecretKey=SK"] none []
      (fun _ => .ok ()) "N" ["a"] ["1"] none ["None"] false initGlobals rfl).2.2.2⟩
